import Mathlib

/-!
Verification of the Storwize/SVC management simulator
(`cinder/tests/test_storwize_svc.py`, class `StorwizeSVCManagementSimulator`)
and of the driver orchestration contracts stated in the specification.

Conventions of the shallow embedding:
* Python dicts keyed by name or id are modelled as association lists
  (`List (key × value)`); `del d[k]` is `aremove`, `d[k] = v` is `aupsert`.
* Numeric strings that the code only ever produces with `str(...)` and
  consumes with `int(...)` (capacities, ids) are modelled as `Nat`;
  strings that are compared literally (`copyrate`, `progress`) stay `String`.
* A command returns `CmdResult`: `success out` for `(out, '')`,
  `error code` for the `self._errors[code]` tuples, and `crash` for an
  uncaught Python exception (KeyError / IndexError / TypeError).
-/

/-- Outcome of one simulated CLI command: `success out` models a
`(out, '')` return, `error code` models returning `self._errors[code]`,
and `crash` models an uncaught Python exception escaping the command. -/
inductive CmdResult where
  | success (out : String)
  | error (code : String)
  | crash
deriving DecidableEq

/-- Association-list lookup, modelling a Python dict read `d[k]` / `k in d`. -/
def alookup {α β : Type} [DecidableEq α] (k : α) : List (α × β) → Option β
  | [] => none
  | p :: rest => if p.1 = k then some p.2 else alookup k rest

/-- Association-list removal, modelling `del d[k]`. -/
def aremove {α β : Type} [DecidableEq α] (k : α) : List (α × β) → List (α × β)
  | [] => []
  | p :: rest => if p.1 = k then aremove k rest else p :: aremove k rest

/-- Association-list update-or-insert, modelling `d[k] = v`. -/
def aupsert {α β : Type} [DecidableEq α] (k : α) (v : β) : List (α × β) → List (α × β)
  | [] => [(k, v)]
  | p :: rest => if p.1 = k then (k, v) :: rest else p :: aupsert k v rest

/-- The seven FlashCopy-mapping lifecycle states of the simulator plus the
pseudo-state `begin_` that only appears as the key `'begin'` of
`_transitions`; `end_` models `'end'`. -/
inductive FCState where
  | begin_
  | idle_or_copied
  | preparing
  | prepared
  | copying
  | stopping
  | stopped
  | end_
deriving DecidableEq

/-- The events (`function` strings) accepted by `_state_transition`. -/
inductive FCEvent where
  | make
  | prepare
  | flush_failed
  | wait
  | start
  | stop
  | delete
  | delete_force
deriving DecidableEq

/-- The `_transitions` dict of `StorwizeSVCManagementSimulator.__init__`
(test_storwize_svc.py lines 134-150): per state, either `none` (the
`'end': None` entry) or the event→successor table. -/
def transitions : FCState → Option (List (FCEvent × FCState))
  | .begin_ => some [(.make, .idle_or_copied)]
  | .idle_or_copied => some [(.prepare, .preparing), (.delete, .end_), (.delete_force, .end_)]
  | .preparing => some [(.flush_failed, .stopped), (.wait, .prepared)]
  | .end_ => none
  | .stopped => some [(.prepare, .preparing), (.delete_force, .end_)]
  | .prepared => some [(.stop, .stopped), (.start, .copying)]
  | .copying => some [(.wait, .idle_or_copied), (.stop, .stopping)]
  | .stopping => some [(.wait, .stopped)]

/-- One FlashCopy mapping record (`fcmap_info` built by `_cmd_mkfcmap`):
`copyrate` and `progress` stay strings because `_state_transition` compares
them literally against `'0'`. -/
structure FCMap where
  id : Nat
  source : String
  target : String
  name : String
  copyrate : String
  progress : String
  autodelete : Bool
  status : FCState
deriving DecidableEq

/-- `StorwizeSVCManagementSimulator._state_transition` (lines 152-171).
The first branch (`function == 'wait' and 'wait' not in
self._transitions[fcmap['status']]`) silently succeeds; when the status is
`end` that membership test runs `'wait' not in None` and raises an uncaught
TypeError, modelled as `crash`.  For any other event the
`self._transitions[curr_state][function]` lookup failure is caught and
returns the catch-all error CMMVC5903E. -/
def state_transition (function : FCEvent) (fcmap : FCMap) : CmdResult × FCMap :=
  match transitions fcmap.status with
  | none =>
    if function = .wait then (.crash, fcmap)
    else (.error "CMMVC5903E", fcmap)
  | some table =>
    if function = .wait ∧ (alookup FCEvent.wait table).isNone then
      (.success "", fcmap)
    else if fcmap.status = .copying ∧ function = .wait then
      if fcmap.copyrate ≠ "0" then
        if fcmap.progress = "0" then
          (.success "", { fcmap with progress := "50" })
        else
          (.success "", { fcmap with progress := "100", status := .idle_or_copied })
      else (.success "", fcmap)
    else
      match alookup function table with
      | some next => (.success "", { fcmap with status := next })
      | none => (.error "CMMVC5903E", fcmap)

/-- Iterated application of the `wait` event, the step the driver's poll
loop applies through `_cmd_lsfcmap`. -/
def iterWait : Nat → FCMap → FCMap
  | 0, m => m
  | n + 1, m => iterWait n (state_transition .wait m).2

/-- The apostrophe character, written by code point to keep source clean. -/
def squote : Char := Char.ofNat 39

/-- The double-quote character. -/
def dquote : Char := Char.ofNat 34

/-- Python `s.strip(chars)`: drop the given characters from both ends. -/
def pyStrip (chars : List Char) (s : String) : String :=
  String.mk (((s.data.dropWhile (fun c => chars.contains c)).reverse.dropWhile
    (fun c => chars.contains c)).reverse)

/-- Python `s.rstrip(chars)`: drop the given characters from the right end. -/
def pyRstrip (chars : List Char) (s : String) : String :=
  String.mk ((s.data.reverse.dropWhile (fun c => chars.contains c)).reverse)

/-- Models the idiom `x.strip('\x27\x27')` used on names throughout the
simulator: strips single quotes only. -/
def stripQuotes (s : String) : String := pyStrip [squote] s

/-- Models `x.strip('\x27\x22')` used by `_cmd_mkhost` and
`_add_port_to_host`: strips single and double quotes. -/
def stripQuotesDq (s : String) : String := pyStrip [squote, dquote] s

/-- `StorwizeSVCManagementSimulator._find_unused_id` (lines 173-182):
collect the integer ids, sort them, return the first index whose sorted
entry exceeds it, else the count.  `first_gap` is the scan loop. -/
def first_gap : Nat → List Nat → Nat
  | idx, [] => idx
  | idx, n :: rest => if n > idx then idx else first_gap (idx + 1) rest

/-- Ascending insertion into a sorted list (helper for `ids.sort()`). -/
def insertSorted (n : Nat) : List Nat → List Nat
  | [] => [n]
  | m :: rest => if n ≤ m then n :: m :: rest else m :: insertSorted n rest

/-- Ascending sort of a `Nat` list, modelling Python `ids.sort()`. -/
def sortNat : List Nat → List Nat
  | [] => []
  | n :: rest => insertSorted n (sortNat rest)

/-- See `first_gap`; the ids are sorted ascending first. -/
def find_unused_id (ids : List Nat) : Nat :=
  first_gap 0 (sortNat ids)

/-- `StorwizeSVCManagementSimulator._is_invalid_name` (lines 184-188):
the name must match `^[a-zA-Z_][\w ._-]*$` (ASCII `\w`, as in Python 2
without `re.UNICODE`). -/
def name_body_char (c : Char) : Bool :=
  c.isAlphanum || c = '_' || c = ' ' || c = '.' || c = '-'

/-- See `name_body_char`. -/
def is_invalid_name (s : String) : Bool :=
  match s.data with
  | [] => true
  | c :: rest => !((c.isAlpha || c = '_') && rest.all name_body_char)

/-- The `unit_array` of `_convert_units_bytes`, pre-lowercased (the code
compares `unit.lower()` with `unit_array[i].lower()`). -/
def unit_list : List String := ["b", "kb", "mb", "gb", "tb", "pb"]

/-- Position of a unit in `unit_list`; `none` models the IndexError the
while loop of `_convert_units_bytes` raises on an unknown unit. -/
def unit_pos (u : String) : List String → Option Nat
  | [] => none
  | x :: rest => if x = u then some 0 else (unit_pos u rest).map (fun n => n + 1)

/-- Python `unit.lower()` (per-character ASCII lowering). -/
def lowerString (s : String) : String := String.mk (s.data.map Char.toLower)

/-- `StorwizeSVCManagementSimulator._convert_units_bytes` (lines 291-299):
multiply by 1024 once per unit step.  Numeric strings are modelled as
`Nat` (the code produces them with `str` and consumes them with `int`). -/
def convert_units_bytes (num : Nat) (unit : String) : Option Nat :=
  (unit_pos (lowerString unit) unit_list).map (fun k => num * 1024 ^ k)

/-- One copy record (`vol_cp` of `_cmd_mkvdisk` / `copy_info` of
`_cmd_addvdiskcopy`). -/
structure VolCopy where
  id : Nat
  status : String
  sync : String
  primary : String
  mdisk_grp_id : String
  mdisk_grp_name : String
  easy_tier : String
  compressed_copy : String
deriving DecidableEq

/-- One `volume_info` record as built by `_cmd_mkvdisk` (lines 517-586);
capacities are numeric strings, modelled as `Nat`. -/
structure Volume where
  id : Nat
  uid : String
  name : String
  capacity : Nat
  IO_group_id : String
  IO_group_name : String
  easy_tier : String
  used_capacity : Nat
  real_capacity : Nat
  free_capacity : Nat
  warning : String
  autoexpand : String
  grainsize : String
  compressed_copy : String
  copies : List (Nat × VolCopy)
deriving DecidableEq

/-- One `host_info` record (`_cmd_mkhost`, lines 773-798). -/
structure Host where
  id : Nat
  host_name : String
  iscsi_names : List String
  wwpns : List String
  chapsecret : Option String
deriving DecidableEq

/-- One `mapping_info` record (`_cmd_mkvdiskhostmap`, lines 913-949). -/
structure HostMapping where
  id : Nat
  host : String
  lun : String
  vol : String
deriving DecidableEq

/-- The mutable state of `StorwizeSVCManagementSimulator`: the object
dictionaries set up in `__init__` (lines 59-65) plus the configured pool
name flag.  The `_next_cmd_error` error-injection hooks are omitted; where
a claim depends on an injected failure the failure is passed explicitly. -/
structure SimState where
  volpool_name : String := "openstack"
  volumes_list : List (String × Volume) := []
  hosts_list : List (String × Host) := []
  mappings_list : List (Nat × HostMapping) := []
  fcmappings_list : List (Nat × FCMap) := []
  pool_openstack2 : List (String × Volume) := []
  pool_openstack3 : List (String × Volume) := []
deriving DecidableEq

/-- Arguments of `_cmd_mkvdisk` after `_cmd_to_dict` parsing; fields the
code reads unconditionally (`size`, `unit`, `iogrp` — "Assume size and
unit are given") are required, the rest mirror `'x' in kwargs` tests. -/
structure MkvdiskArgs where
  name : Option String := none
  size : Nat
  unit : String
  iogrp : String
  easytier : Option String := none
  rsize : Option String := none
  warning : Option String := none
  autoexpand : Bool := false
  grainsize : Option String := none
  compressed : Bool := false
deriving DecidableEq

/-- `StorwizeSVCManagementSimulator._cmd_mkvdisk` (lines 517-586).
Crashes modelled: an unknown `unit` (IndexError inside
`_convert_units_bytes`) and a missing `easytier` flag (KeyError at the
`vol_cp` build, line 577, which reads `volume_info['easy_tier']` that only
an `easytier` kwarg sets).  The duplicate-name check happens last, exactly
as in the source (line 581), with nothing mutated before it. -/
def cmd_mkvdisk (args : MkvdiskArgs) (st : SimState) : CmdResult × SimState :=
  let idn := find_unused_id (st.volumes_list.map (fun p => p.2.id))
  let uid := "ABCDEFABCDEFABCDEF" ++ "00000000000000" ++ toString idn
  let vname := match args.name with
    | some n => stripQuotes n
    | none => "vdisk" ++ toString idn
  match convert_units_bytes args.size args.unit with
  | none => (.crash, st)
  | some cap =>
    match args.easytier with
    | none => (.crash, st)
    | some et =>
      let easy := if et = "on" then "on" else "off"
      let thin := match args.rsize with
        | some _ =>
          (786432, 21474816, 38219264,
            (match args.warning with
             | some w => pyRstrip [Char.ofNat 37] w
             | none => "80"),
            (if args.autoexpand then "on" else "off"),
            (match args.grainsize with
             | some g => g
             | none => "32"),
            (if args.compressed then "yes" else "no"))
        | none => (cap, cap, 0, "", "", "", "no")
      let vol_cp : VolCopy :=
        { id := 0, status := "online", sync := "yes", primary := "yes",
          mdisk_grp_id := "1", mdisk_grp_name := st.volpool_name,
          easy_tier := easy, compressed_copy := thin.2.2.2.2.2.2 }
      let vol : Volume :=
        { id := idn, uid := uid, name := vname, capacity := cap,
          IO_group_id := args.iogrp, IO_group_name := "io_grp" ++ args.iogrp,
          easy_tier := easy, used_capacity := thin.1, real_capacity := thin.2.1,
          free_capacity := thin.2.2.1, warning := thin.2.2.2.1,
          autoexpand := thin.2.2.2.2.1, grainsize := thin.2.2.2.2.2.1,
          compressed_copy := thin.2.2.2.2.2.2, copies := [(0, vol_cp)] }
      if (alookup vname st.volumes_list).isSome then (.error "CMMVC6035E", st)
      else
        (.success ("Virtual Disk, id [" ++ toString idn ++ "], successfully created"),
          { st with volumes_list := aupsert vname vol st.volumes_list })

/-- Does the volume appear in any host mapping (`mapping['vol'] ==
vol_name` scan of `_cmd_rmvdisk`)? -/
def vol_has_host_mapping (st : SimState) (vol_name : String) : Bool :=
  st.mappings_list.any (fun p => p.2.vol = vol_name)

/-- Is the volume the source or the target of some FlashCopy mapping
(second scan of `_cmd_rmvdisk`)? -/
def vol_in_fcmap (st : SimState) (vol_name : String) : Bool :=
  st.fcmappings_list.any (fun p => p.2.source = vol_name || p.2.target = vol_name)

/-- `StorwizeSVCManagementSimulator._cmd_rmvdisk` (lines 589-609). -/
def cmd_rmvdisk (force : Bool) (obj : Option String) (st : SimState) :
    CmdResult × SimState :=
  match obj with
  | none => (.error "CMMVC5701E", st)
  | some o =>
    let vol_name := stripQuotes o
    if (alookup vol_name st.volumes_list).isNone then (.error "CMMVC5753E", st)
    else if !force && vol_has_host_mapping st vol_name then (.error "CMMVC5840E", st)
    else if !force && vol_in_fcmap st vol_name then (.error "CMMVC5840E", st)
    else (.success "", { st with volumes_list := aremove vol_name st.volumes_list })

/-- `StorwizeSVCManagementSimulator._cmd_mkfcmap` (lines 1028-1064).
`copyrate` defaults to `'50'`; the checks run in source order: source
given and existing, target given and existing, source ≠ target, then the
capacity comparison, and only then is the mapping created. -/
def cmd_mkfcmap (source target copyrate : Option String) (autodelete : Bool)
    (st : SimState) : CmdResult × SimState :=
  let cr := match copyrate with
    | some c => c
    | none => "50"
  match source with
  | none => (.error "CMMVC5707E", st)
  | some s0 =>
    let s := stripQuotes s0
    match alookup s st.volumes_list with
    | none => (.error "CMMVC5754E", st)
    | some vs =>
      match target with
      | none => (.error "CMMVC5707E", st)
      | some t0 =>
        let t := stripQuotes t0
        match alookup t st.volumes_list with
        | none => (.error "CMMVC5754E", st)
        | some vt =>
          if s = t then (.error "CMMVC6303E", st)
          else if vs.capacity ≠ vt.capacity then (.error "CMMVC5924E", st)
          else
            let idn := find_unused_id (st.fcmappings_list.map (fun p => p.2.id))
            let fcmap : FCMap :=
              { id := idn, source := s, target := t, name := "fcmap" ++ toString idn,
                copyrate := cr, progress := "0", autodelete := autodelete,
                status := .idle_or_copied }
            (.success ("FlashCopy Mapping, id [" ++ toString idn ++ "], successfully created"),
              { st with fcmappings_list := aupsert idn fcmap st.fcmappings_list })

/-- `StorwizeSVCManagementSimulator._cmd_gen_prestartfcmap` (lines
1066-1080) without the `bad_id` injection hook (injecting it equals
calling with an absent id).  The in-place mutation of the looked-up
`fcmap` is modelled by writing the stepped record back. -/
def cmd_gen_prestartfcmap (obj : Option Nat) (st : SimState) : CmdResult × SimState :=
  match obj with
  | none => (.error "CMMVC5701E", st)
  | some id_num =>
    match alookup id_num st.fcmappings_list with
    | none => (.error "CMMVC5753E", st)
    | some fcmap =>
      let r := state_transition .prepare fcmap
      (r.1, { st with fcmappings_list := aupsert id_num r.2 st.fcmappings_list })

/-- `StorwizeSVCManagementSimulator._cmd_gen_startfcmap` (lines 1082-1096),
same conventions as `cmd_gen_prestartfcmap`. -/
def cmd_gen_startfcmap (obj : Option Nat) (st : SimState) : CmdResult × SimState :=
  match obj with
  | none => (.error "CMMVC5701E", st)
  | some id_num =>
    match alookup id_num st.fcmappings_list with
    | none => (.error "CMMVC5753E", st)
    | some fcmap =>
      let r := state_transition .start fcmap
      (r.1, { st with fcmappings_list := aupsert id_num r.2 st.fcmappings_list })

/-- `StorwizeSVCManagementSimulator._cmd_stopfcmap` (lines 1098-1108). -/
def cmd_stopfcmap (obj : Option Nat) (st : SimState) : CmdResult × SimState :=
  match obj with
  | none => (.error "CMMVC5701E", st)
  | some id_num =>
    match alookup id_num st.fcmappings_list with
    | none => (.error "CMMVC5753E", st)
    | some fcmap =>
      let r := state_transition .stop fcmap
      (r.1, { st with fcmappings_list := aupsert id_num r.2 st.fcmappings_list })

/-- `StorwizeSVCManagementSimulator._cmd_rmfcmap` (lines 1110-1129,
without the `bad_id` hook): apply `delete` or `delete_force`, then remove
the mapping from `_fcmappings_list` exactly when its status became
`end`. -/
def cmd_rmfcmap (force : Bool) (obj : Option Nat) (st : SimState) :
    CmdResult × SimState :=
  match obj with
  | none => (.error "CMMVC5701E", st)
  | some id_num =>
    match alookup id_num st.fcmappings_list with
    | none => (.error "CMMVC5753E", st)
    | some fcmap =>
      let function := if force then FCEvent.delete_force else FCEvent.delete
      let r := state_transition function fcmap
      if r.2.status = .end_ then
        (r.1, { st with fcmappings_list := aremove id_num st.fcmappings_list })
      else
        (r.1, { st with fcmappings_list := aupsert id_num r.2 st.fcmappings_list })

/-- Port argument of `_cmd_mkhost` / `_cmd_addhostport`: at most one of
`-iscsiname` and `-hbawwpn` (the code tests `iscsiname` first). -/
structure HostPortArgs where
  iscsiname : Option String := none
  hbawwpn : Option String := none
deriving DecidableEq

/-- Does `added_val` already appear on another host with a different id
(the scan at lines 764-769 of `_add_port_to_host`)? -/
def port_on_other_host (hosts : List (String × Host)) (selfId : Nat)
    (use_iscsi : Bool) (added_val : String) : Bool :=
  hosts.any (fun p =>
    p.2.id ≠ selfId &&
      (if use_iscsi then p.2.iscsi_names else p.2.wwpns).contains added_val)

/-- `StorwizeSVCManagementSimulator._add_port_to_host` (lines 752-770).
The source APPENDS the port to `host_info` first (line 762) and only then
scans the other hosts for a duplicate, so the mutated record is returned
together with the result even when CMMVC6581E is reported. -/
def add_port_to_host (hosts : List (String × Host)) (host_info : Host)
    (args : HostPortArgs) : CmdResult × Host :=
  match args.iscsiname with
  | some v0 =>
    let v := stripQuotesDq v0
    let h2 := { host_info with iscsi_names := host_info.iscsi_names ++ [v] }
    if port_on_other_host hosts host_info.id true v then (.error "CMMVC6581E", h2)
    else (.success "", h2)
  | none =>
    match args.hbawwpn with
    | some v0 =>
      let v := stripQuotesDq v0
      let h2 := { host_info with wwpns := host_info.wwpns ++ [v] }
      if port_on_other_host hosts host_info.id false v then (.error "CMMVC6581E", h2)
      else (.success "", h2)
    | none => (.error "CMMVC5707E", host_info)

/-- `StorwizeSVCManagementSimulator._cmd_mkhost` (lines 773-798): the
fresh `host_info` is only stored in `_hosts_list` when `_add_port_to_host`
reported no error, so a duplicate port discards the new host. -/
def cmd_mkhost (name : Option String) (ports : HostPortArgs) (st : SimState) :
    CmdResult × SimState :=
  let idn := find_unused_id (st.hosts_list.map (fun p => p.2.id))
  let host_name := match name with
    | some n => stripQuotesDq n
    | none => "host" ++ toString idn
  if is_invalid_name host_name then (.error "CMMVC6527E", st)
  else if (alookup host_name st.hosts_list).isSome then (.error "CMMVC6035E", st)
  else
    let h0 : Host := { id := idn, host_name := host_name, iscsi_names := [],
                       wwpns := [], chapsecret := none }
    let r := add_port_to_host st.hosts_list h0 ports
    match r.1 with
    | .success _ =>
      (.success ("Host, id [" ++ toString idn ++ "], successfully created"),
        { st with hosts_list := st.hosts_list ++ [(host_name, r.2)] })
    | e => (e, st)

/-- `StorwizeSVCManagementSimulator._cmd_addhostport` (lines 801-810):
because `_add_port_to_host` mutates the looked-up host in place, the
updated host is written back to `_hosts_list` REGARDLESS of whether an
error is returned. -/
def cmd_addhostport (obj : Option String) (ports : HostPortArgs) (st : SimState) :
    CmdResult × SimState :=
  match obj with
  | none => (.error "CMMVC5701E", st)
  | some o =>
    let host_name := stripQuotes o
    match alookup host_name st.hosts_list with
    | none => (.error "CMMVC5753E", st)
    | some h =>
      let r := add_port_to_host st.hosts_list h ports
      (r.1, { st with hosts_list := aupsert host_name r.2 st.hosts_list })

/-- `StorwizeSVCManagementSimulator._cmd_rmhost` (lines 829-842). -/
def cmd_rmhost (obj : Option String) (st : SimState) : CmdResult × SimState :=
  match obj with
  | none => (.error "CMMVC5701E", st)
  | some o =>
    let host_name := stripQuotes o
    if (alookup host_name st.hosts_list).isNone then (.error "CMMVC5753E", st)
    else if st.mappings_list.any (fun p => p.2.host = host_name) then
      (.error "CMMVC5871E", st)
    else (.success "", { st with hosts_list := aremove host_name st.hosts_list })

/-- Does the first list start the second one?  Helper for the Python
`sub in s` substring test. -/
def leadMatch {α : Type} [DecidableEq α] : List α → List α → Bool
  | [], _ => true
  | _ :: _, [] => false
  | a :: as, b :: bs => a = b && leadMatch as bs

/-- Python `sub in s` on strings: `sub` occurs contiguously in `s`. -/
def occursWithin {α : Type} [DecidableEq α] (needle : List α) : List α → Bool
  | [] => needle.isEmpty
  | b :: bs => leadMatch needle (b :: bs) || occursWithin needle bs

/-- Which pool object `_cmd_migratevdisk` binds to `curr_mdiskgrp`:
either `self._volumes_list` or — through the bug at lines 1208-1211,
where `for pool in self._other_pools` iterates over the KEY strings and
`vdisk in pool` is a substring test — one of the key strings themselves. -/
inductive CurrSel where
  | primaryPool
  | keyString (s : String)
deriving DecidableEq

/-- The three pool dictionaries `_cmd_migratevdisk` can bind to
`tgt_mdiskgrp`. -/
inductive TgtSel where
  | primary
  | p2
  | p3
deriving DecidableEq

/-- Python `==` on two volume dicts-of-dicts pools: content equality
(guaranteed key-uniqueness makes the two-sided lookup check faithful). -/
def pool_dict_eq (a b : List (String × Volume)) : Bool :=
  a.all (fun p => alookup p.1 b = some p.2) && b.all (fun p => alookup p.1 a = some p.2)

/-- Result of running `_cmd_migratevdisk` with the intermediate state made
observable: `mid` is the state right after the first pool mutation
(`tgt_mdiskgrp[vdisk] = vol`, line 1228), `final` after the second
(`del curr_mdiskgrp[vdisk]`, line 1229); on the error and crash paths
`mid = final = ` the input state. -/
structure MigrateOut where
  result : CmdResult
  mid : SimState
  final : SimState
deriving DecidableEq

/-- Read the volume list of a target pool selection. -/
def tgt_pool_list (st : SimState) : TgtSel → List (String × Volume)
  | .primary => st.volumes_list
  | .p2 => st.pool_openstack2
  | .p3 => st.pool_openstack3

/-- Write the volume list of a target pool selection. -/
def set_tgt_pool (st : SimState) (t : TgtSel) (l : List (String × Volume)) : SimState :=
  match t with
  | .primary => { st with volumes_list := l }
  | .p2 => { st with pool_openstack2 := l }
  | .p3 => { st with pool_openstack3 := l }

/-- `StorwizeSVCManagementSimulator._cmd_migratevdisk` (lines 1199-1230).
Faithful points: (1) the source-pool search only ever finds the primary
pool — the `for pool in self._other_pools` loop tests `vdisk in pool`
against the KEY strings, so a volume sitting in `openstack2`/`openstack3`
is reported CMMVC5754E unless its name is a substring of a pool key, in
which case `curr_mdiskgrp` becomes a string and `curr_mdiskgrp[vdisk]`
raises TypeError (`crash`) after target resolution; (2) `curr_mdiskgrp ==
tgt_mdiskgrp` is Python dict content equality; (3) the success path runs
`tgt_mdiskgrp[vdisk] = vol` BEFORE `del curr_mdiskgrp[vdisk]`. -/
def cmd_migratevdisk (mdiskgrp vdisk : Option String) (st : SimState) : MigrateOut :=
  match mdiskgrp, vdisk with
  | some mg0, some vd0 =>
    let mdg := stripQuotes mg0
    let vd := stripQuotes vd0
    let curr : Option CurrSel :=
      if (alookup vd st.volumes_list).isSome then some .primaryPool
      else if occursWithin vd.data "openstack2".data then some (.keyString "openstack2")
      else if occursWithin vd.data "openstack3".data then some (.keyString "openstack3")
      else none
    match curr with
    | none => { result := .error "CMMVC5754E", mid := st, final := st }
    | some csel =>
      let tgt : Option TgtSel :=
        if mdg = st.volpool_name then some .primary
        else if mdg = "openstack2" then some .p2
        else if mdg = "openstack3" then some .p3
        else none
      match tgt with
      | none => { result := .error "CMMVC5754E", mid := st, final := st }
      | some tsel =>
        match csel with
        | .keyString _ => { result := .crash, mid := st, final := st }
        | .primaryPool =>
          if tsel = .primary || pool_dict_eq st.volumes_list (tgt_pool_list st tsel) then
            { result := .error "CMMVC6430E", mid := st, final := st }
          else
            match alookup vd st.volumes_list with
            | none => { result := .crash, mid := st, final := st }
            | some vol =>
              let mid := set_tgt_pool st tsel (aupsert vd vol (tgt_pool_list st tsel))
              let fin := { mid with volumes_list := aremove vd mid.volumes_list }
              { result := .success "", mid := mid, final := fin }
  | _, _ => { result := .error "CMMVC5707E", mid := st, final := st }

/-- The `capacity` row of the per-object branch of `_cmd_lsvdisk`
(lines 670-695): the raw stored capacity.  (The byte-unit conversion loop
at lines 681-683 rebinds the loop variable and so never changes the
output, with or without the `-bytes` flag.) -/
def lsvdisk_capacity_attr (obj : String) (st : SimState) : Option Nat :=
  (alookup obj st.volumes_list).map Volume.capacity

/-- One data row of `_cmd_lsmdiskgrp` (lines 320-338), restricted to the
fields the capacity reporter consumes; `capacity` and `free_capacity` are
the byte counts hard-coded in the source. -/
structure PoolInfo where
  id : Nat
  name : String
  vdisk_count : Nat
  capacity : Nat
  extent_size : Nat
  free_capacity : Nat
deriving DecidableEq

/-- The three pool rows `_cmd_lsmdiskgrp` always returns (lines 327-338):
row 1 is the configured pool, rows 2 and 3 are `openstack2`/`openstack3`. -/
def lsmdiskgrp_rows (st : SimState) : List PoolInfo :=
  [ { id := 1, name := st.volpool_name, vdisk_count := st.volumes_list.length,
      capacity := 3573412790272, extent_size := 256, free_capacity := 3529926246400 },
    { id := 2, name := "openstack2", vdisk_count := 0,
      capacity := 3573412790272, extent_size := 256, free_capacity := 3529432325160 },
    { id := 3, name := "openstack3", vdisk_count := 0,
      capacity := 3573412790272, extent_size := 128, free_capacity := 3529432325160 } ]

/-- The primary pool row of `lsmdiskgrp_rows`. -/
def sim_primary_pool (st : SimState) : PoolInfo :=
  { id := 1, name := st.volpool_name, vdisk_count := st.volumes_list.length,
    capacity := 3573412790272, extent_size := 256, free_capacity := 3529926246400 }

/-- The statistics record of the capacity/stats reporter (spec §4.5). -/
structure VolumeStats where
  total_capacity_gb : ℚ
  free_capacity_gb : ℚ

/-- Modelled from the spec: the Capacity/Stats Reporter of spec §4.5 — the
driver's `_update_volume_stats` in `cinder/volume/drivers/storwize_svc.py`,
which is not under src/ (only its caller `test_storwize_svc_get_volume_stats`
is).  Per the spec and that test, it aggregates one pool's reported
capacity fields into `total_capacity_gb` and `free_capacity_gb`, the
`capacity` and `free_capacity` byte counts divided by `2^30`. -/
def update_volume_stats (p : PoolInfo) : VolumeStats :=
  { total_capacity_gb := (p.capacity : ℚ) / 2 ^ 30,
    free_capacity_gb := (p.free_capacity : ℚ) / 2 ^ 30 }

/-- Injected failure point for the snapshot/clone flow, mirroring the
error injections of `test_storwize_svc_snapshots`: `atPrepare` and
`atStart` make the prepare/start command fail, `atTimeout` exhausts the
poll budget (`storwize_svc_flashcopy_timeout = 1`). -/
inductive SnapFail where
  | noFail
  | atPrepare
  | atStart
  | atTimeout
deriving DecidableEq

/-- Errors the snapshot/clone flow re-raises. -/
inductive FlowError where
  | sourceNotFound
  | targetCreateFailed
  | mapCreateFailed
  | prepareFailed
  | startFailed
  | waitTimeout
deriving DecidableEq

/-- Modelled from the spec: the cleanup path of spec §4.3 — part of the
driver's `create_snapshot`/`create_volume_from_snapshot` error handling in
`cinder/volume/drivers/storwize_svc.py`, which is not under src/.  Per the
spec, failure "triggers an automatic best-effort deletion of the
partially-created target volume and the PiT mapping before re-raising":
the PiT mapping entry is dropped and the target volume force-deleted
through the simulator's `rmvdisk` (result discarded: best-effort). -/
def snapshot_cleanup (tgt_name : String) (fcmap_id : Option Nat) (st : SimState) :
    SimState :=
  let st1 := match fcmap_id with
    | some i => { st with fcmappings_list := aremove i st.fcmappings_list }
    | none => st
  (cmd_rmvdisk true (some tgt_name) st1).2

/-- One poll step of the driver's wait loop: read the mapping and apply
the simulator's `wait` transition (what `_cmd_lsfcmap`, lines 1170-1174,
does to each matching mapping). -/
def apply_wait_once (fc_id : Nat) (st : SimState) : SimState :=
  match alookup fc_id st.fcmappings_list with
  | none => st
  | some m =>
    { st with fcmappings_list := aupsert fc_id (state_transition .wait m).2 st.fcmappings_list }

/-- Modelled from the spec: the driver's poll loop of spec §4.4
("repeatedly applying `wait` at a configurable interval up to a
configurable timeout"), implemented in `storwize_svc.py` which is not
under src/.  Fuel is the timeout budget; `true` means the mapping reached
`idle_or_copied` or `stopped` (or disappeared through autodelete). -/
def wait_for_copy : Nat → Nat → SimState → Bool × SimState
  | 0, _, st => (false, st)
  | fuel + 1, fc_id, st =>
    match alookup fc_id st.fcmappings_list with
    | none => (true, st)
    | some m =>
      if m.status = FCState.idle_or_copied ∨ m.status = FCState.stopped then (true, st)
      else wait_for_copy fuel fc_id (apply_wait_once fc_id st)

/-- Modelled from the spec: the `mkvdisk` request the driver issues for a
snapshot/clone target — same capacity as the source, in bytes. -/
def snapshot_mkargs (tgt_name : String) (sz : Nat) : MkvdiskArgs :=
  { name := some tgt_name, size := sz, unit := "b", iogrp := "0", easytier := some "on" }

/-- Modelled from the spec: `create_snapshot` / `create_cloned_volume`
orchestration of spec §4.3, implemented in `storwize_svc.py` which is not
under src/ — "create target volume of source's capacity, create a PiT
Mapping, drive it to a safe completion point", with the §4.3 cleanup on
every failure after the target volume exists.  The simulator commands it
drives (`cmd_mkvdisk`, `cmd_mkfcmap`, `cmd_gen_prestartfcmap`,
`cmd_gen_startfcmap`) are the source-modelled ones above; `fail` injects
the failures the tests inject (bad_id on prepare/start, 1-second
flashcopy timeout). -/
def create_snapshot_flow (src_name tgt_name : String) (fail : SnapFail) (fuel : Nat)
    (st : SimState) : Except FlowError Unit × SimState :=
  match alookup src_name st.volumes_list with
  | none => (Except.error FlowError.sourceNotFound, st)
  | some src_vol =>
    let r1 := cmd_mkvdisk (snapshot_mkargs tgt_name src_vol.capacity) st
    match r1.1 with
    | CmdResult.success _ =>
      let st1 := r1.2
      let fc_id := find_unused_id (st1.fcmappings_list.map (fun p => p.2.id))
      let r2 := cmd_mkfcmap (some src_name) (some tgt_name) none false st1
      match r2.1 with
      | CmdResult.success _ =>
        let st2 := r2.2
        if fail = SnapFail.atPrepare then
          (Except.error FlowError.prepareFailed, snapshot_cleanup tgt_name (some fc_id) st2)
        else
          let r3 := cmd_gen_prestartfcmap (some fc_id) st2
          match r3.1 with
          | CmdResult.success _ =>
            let st3 := apply_wait_once fc_id r3.2
            if fail = SnapFail.atStart then
              (Except.error FlowError.startFailed, snapshot_cleanup tgt_name (some fc_id) st3)
            else
              let r4 := cmd_gen_startfcmap (some fc_id) st3
              match r4.1 with
              | CmdResult.success _ =>
                let budget := if fail = SnapFail.atTimeout then 0 else fuel
                let r5 := wait_for_copy budget fc_id r4.2
                if r5.1 then (Except.ok (), r5.2)
                else (Except.error FlowError.waitTimeout,
                  snapshot_cleanup tgt_name (some fc_id) r5.2)
              | _ => (Except.error FlowError.startFailed,
                  snapshot_cleanup tgt_name (some fc_id) st3)
          | _ => (Except.error FlowError.prepareFailed,
              snapshot_cleanup tgt_name (some fc_id) r3.2)
      | _ => (Except.error FlowError.mapCreateFailed, snapshot_cleanup tgt_name none st1)
    | _ => (Except.error FlowError.targetCreateFailed, r1.2)

/-- A concrete FlashCopy mapping sitting in state `stopped`. -/
def fcmapStopped : FCMap :=
  { id := 0, source := "vol1", target := "snap1", name := "fcmap0", copyrate := "50",
    progress := "0", autodelete := false, status := .stopped }

/-- A concrete FlashCopy mapping sitting in state `idle_or_copied`. -/
def fcmapIdle : FCMap :=
  { id := 0, source := "vol1", target := "snap1", name := "fcmap0", copyrate := "50",
    progress := "0", autodelete := false, status := .idle_or_copied }

/-- Is `e` defined for state `s` in the `_transitions` table? -/
def event_defined (s : FCState) (e : FCEvent) : Bool :=
  match transitions s with
  | none => false
  | some table => (alookup e table).isSome

/-- A concrete FlashCopy mapping sitting in state `prepared`. -/
def fcmapPrepared : FCMap :=
  { id := 0, source := "vol1", target := "snap1", name := "fcmap0", copyrate := "50",
    progress := "0", autodelete := false, status := .prepared }

/-- Two concrete volumes of different capacities in the primary pool. -/
def volA : Volume :=
  { id := 0, uid := "ABCDEFABCDEFABCDEF000000000000000", name := "vol1",
    capacity := 1073741824, IO_group_id := "0", IO_group_name := "io_grp0",
    easy_tier := "on", used_capacity := 1073741824, real_capacity := 1073741824,
    free_capacity := 0, warning := "", autoexpand := "", grainsize := "",
    compressed_copy := "no", copies := [] }

/-- See `volA`; same pool, twice the capacity. -/
def volB : Volume :=
  { volA with id := 1, name := "vol2", capacity := 2147483648 }

/-- A state holding exactly `volA` and `volB`. -/
def stTwoVols : SimState :=
  { volumes_list := [("vol1", volA), ("vol2", volB)] }

/-- Concrete `mkvdisk` arguments: 10 GB volume `vol1` with easytier on. -/
def mkvdiskArgs10g : MkvdiskArgs :=
  { name := some "vol1", size := 10, unit := "gb", iogrp := "0", easytier := some "on" }

/-- State after `mkhost host1 -iscsiname iqn.x` on an empty array. -/
def hostStateOne : SimState :=
  (cmd_mkhost (some "host1") { iscsiname := some "iqn.x" } {}).2

/-- State after additionally `mkhost host2 -iscsiname iqn.y`. -/
def hostStateTwo : SimState :=
  (cmd_mkhost (some "host2") { iscsiname := some "iqn.y" } hostStateOne).2

/-- A state where `vol1` and `snap1` exist and a FlashCopy mapping
references `vol1` as its source. -/
def stVolWithFcmap : SimState :=
  { volumes_list := [("vol1", volA), ("snap1", { volA with id := 1, name := "snap1" })],
    fcmappings_list := [(0, fcmapIdle)] }

/-- A one-volume state for the migration theorems. -/
def stMigrate : SimState := { volumes_list := [("vol1", volA)] }

theorem alookup_aupsert {α β : Type} [DecidableEq α] (k q : α) (v : β) (l : List (α × β)) :
    alookup q (aupsert k v l) = if q = k then some v else alookup q l := by
  induction l with
  | nil =>
    by_cases h : q = k
    · simp [aupsert, alookup, h]
    · have h2 : ¬ k = q := fun hh => h hh.symm
      simp [aupsert, alookup, h, h2]
  | cons p rest ih =>
    by_cases hp : p.1 = k
    · by_cases hq : q = k
      · simp [aupsert, alookup, hp, hq]
      · have h2 : ¬ k = q := fun hh => hq hh.symm
        have h3 : ¬ p.1 = q := by rw [hp]; exact h2
        simp [aupsert, alookup, hp, hq, h2, h3]
    · by_cases hq : p.1 = q
      · have h2 : ¬ q = k := fun hh => hp (hq ▸ hh)
        simp [aupsert, alookup, hp, hq, h2]
      · simp [aupsert, alookup, hp, hq, ih]

theorem alookup_aremove {α β : Type} [DecidableEq α] (k q : α) (l : List (α × β)) :
    alookup q (aremove k l) = if q = k then none else alookup q l := by
  induction l with
  | nil => by_cases h : q = k <;> simp [aremove, alookup, h]
  | cons p rest ih =>
    by_cases hp : p.1 = k
    · by_cases hq : q = k
      · subst hq
        simp only [aremove, hp, if_pos]
        simpa using ih
      · have h3 : ¬ p.1 = q := by
          rw [hp]
          exact fun hh => hq hh.symm
        have h4 : ¬ k = q := hp ▸ h3
        simp [aremove, alookup, hp, hq, h3, h4, ih]
    · by_cases hq : p.1 = q
      · have h2 : ¬ q = k := fun hh => hp (hq ▸ hh)
        simp [aremove, alookup, hp, hq, h2]
      · simp [aremove, alookup, hp, hq, ih]

example :
    state_transition .prepare
      { id := 0, source := "s", target := "t", name := "fcmap0", copyrate := "50",
        progress := "0", autodelete := false, status := .idle_or_copied } =
    (.success "",
      { id := 0, source := "s", target := "t", name := "fcmap0", copyrate := "50",
        progress := "0", autodelete := false, status := .preparing }) := by decide

example :
    state_transition .delete
      { id := 0, source := "s", target := "t", name := "fcmap0", copyrate := "50",
        progress := "0", autodelete := false, status := .stopped } =
    (.error "CMMVC5903E",
      { id := 0, source := "s", target := "t", name := "fcmap0", copyrate := "50",
        progress := "0", autodelete := false, status := .stopped }) := by decide

example :
    state_transition .wait
      { id := 0, source := "s", target := "t", name := "fcmap0", copyrate := "50",
        progress := "0", autodelete := false, status := .idle_or_copied } =
    (.success "",
      { id := 0, source := "s", target := "t", name := "fcmap0", copyrate := "50",
        progress := "0", autodelete := false, status := .idle_or_copied }) := by decide

theorem aupsert_self {α β : Type} [DecidableEq α] (k : α) (v : β) (l : List (α × β))
    (h : alookup k l = some v) : aupsert k v l = l := by
  induction l with
  | nil => simp [alookup] at h
  | cons p rest ih =>
    obtain ⟨a, b⟩ := p
    by_cases hp : a = k
    · subst hp
      simp [alookup] at h
      simp [aupsert, h]
    · simp [alookup, hp] at h
      simp [aupsert, hp, ih h]

/-- Claim C1 counterexample: the claim lists
`idle_or_copied|stopped --delete|delete_force--> end`, but the simulator
table gives state `stopped` only the `delete_force` event
(`'stopped': {'prepare': ..., 'delete_force': 'end'}`, line 141-142), so
applying `delete` to a mapping in `stopped` returns the catch-all error
CMMVC5903E, leaves the status `stopped` (not `end`), and `_cmd_rmfcmap`
without `-force` keeps the mapping in the list. -/
theorem c1_delete_from_stopped_refuted :
    state_transition .delete fcmapStopped = (.error "CMMVC5903E", fcmapStopped) ∧
    fcmapStopped.status ≠ FCState.end_ ∧
    (cmd_rmfcmap false (some 0) { fcmappings_list := [(0, fcmapStopped)] }).1 =
      CmdResult.error "CMMVC5903E" ∧
    alookup 0 (cmd_rmfcmap false (some 0)
      { fcmappings_list := [(0, fcmapStopped)] }).2.fcmappings_list =
      some fcmapStopped := by decide

/-- Claim C1 (amended): every transition of the spec table behaves as
listed EXCEPT that from `stopped` only `delete_force` reaches `end`; a
plain `delete` in `stopped` yields the CMMVC5903E invalid-transition
error and changes nothing.  In detail: `idle_or_copied --prepare-->
preparing`; `preparing --flush_failed--> stopped`; `preparing --wait-->
prepared`; `prepared --start--> copying`; `prepared --stop--> stopped`;
`copying --wait-->` increments progress 0→50 staying `copying`, and
otherwise sets progress 100 and moves to `idle_or_copied`, while the copy
rate is nonzero; `copying --stop--> stopping`; `stopping --wait-->
stopped`; `idle_or_copied --delete|delete_force--> end`; `stopped
--delete_force--> end`; and a mapping reaching `end` through
`_cmd_rmfcmap` is removed from the array's mapping list. -/
theorem c1_transition_table_amended (m : FCMap) (st : SimState) (i : Nat) :
    (m.status = .idle_or_copied →
      state_transition .prepare m = (.success "", { m with status := .preparing })) ∧
    (m.status = .preparing →
      state_transition .flush_failed m = (.success "", { m with status := .stopped })) ∧
    (m.status = .preparing →
      state_transition .wait m = (.success "", { m with status := .prepared })) ∧
    (m.status = .prepared →
      state_transition .start m = (.success "", { m with status := .copying })) ∧
    (m.status = .prepared →
      state_transition .stop m = (.success "", { m with status := .stopped })) ∧
    (m.status = .copying → m.copyrate ≠ "0" → m.progress = "0" →
      state_transition .wait m = (.success "", { m with progress := "50" })) ∧
    (m.status = .copying → m.copyrate ≠ "0" → m.progress ≠ "0" →
      state_transition .wait m =
        (.success "", { m with progress := "100", status := .idle_or_copied })) ∧
    (m.status = .copying →
      state_transition .stop m = (.success "", { m with status := .stopping })) ∧
    (m.status = .stopping →
      state_transition .wait m = (.success "", { m with status := .stopped })) ∧
    (m.status = .idle_or_copied →
      state_transition .delete m = (.success "", { m with status := .end_ })) ∧
    (m.status = .idle_or_copied →
      state_transition .delete_force m = (.success "", { m with status := .end_ })) ∧
    (m.status = .stopped →
      state_transition .delete_force m = (.success "", { m with status := .end_ })) ∧
    (m.status = .stopped →
      state_transition .delete m = (.error "CMMVC5903E", m)) ∧
    (alookup i st.fcmappings_list = some m → m.status = .idle_or_copied →
      ∀ force, (cmd_rmfcmap force (some i) st).1 = CmdResult.success "" ∧
        alookup i (cmd_rmfcmap force (some i) st).2.fcmappings_list = none) ∧
    (alookup i st.fcmappings_list = some m → m.status = .stopped →
      (cmd_rmfcmap true (some i) st).1 = CmdResult.success "" ∧
        alookup i (cmd_rmfcmap true (some i) st).2.fcmappings_list = none) ∧
    (alookup i st.fcmappings_list = some m → m.status = .stopped →
      cmd_rmfcmap false (some i) st = (CmdResult.error "CMMVC5903E", st)) := by
  refine ⟨?_, ?_, ?_, ?_, ?_, ?_, ?_, ?_, ?_, ?_, ?_, ?_, ?_, ?_, ?_, ?_⟩
  · intro h
    simp [state_transition, h, transitions, alookup]
  · intro h
    simp [state_transition, h, transitions, alookup]
  · intro h
    simp [state_transition, h, transitions, alookup]
  · intro h
    simp [state_transition, h, transitions, alookup]
  · intro h
    simp [state_transition, h, transitions, alookup]
  · intro h hcr hpr
    simp [state_transition, h, transitions, alookup, hcr, hpr]
  · intro h hcr hpr
    simp [state_transition, h, transitions, alookup, hcr, hpr]
  · intro h
    simp [state_transition, h, transitions, alookup]
  · intro h
    simp [state_transition, h, transitions, alookup]
  · intro h
    simp [state_transition, h, transitions, alookup]
  · intro h
    simp [state_transition, h, transitions, alookup]
  · intro h
    simp [state_transition, h, transitions, alookup]
  · intro h
    simp [state_transition, h, transitions, alookup]
  · intro hl h force
    have hs : state_transition (if force then FCEvent.delete_force else FCEvent.delete) m =
        (.success "", { m with status := .end_ }) := by
      cases force <;> simp [state_transition, h, transitions, alookup]
    simp [cmd_rmfcmap, hl, hs, alookup_aremove]
  · intro hl h
    have hs : state_transition FCEvent.delete_force m =
        (.success "", { m with status := .end_ }) := by
      simp [state_transition, h, transitions, alookup]
    simp [cmd_rmfcmap, hl, hs, alookup_aremove]
  · intro hl h
    have hs : state_transition FCEvent.delete m = (.error "CMMVC5903E", m) := by
      simp [state_transition, h, transitions, alookup]
    have hne : m.status ≠ FCState.end_ := by
      rw [h]
      decide
    simp [cmd_rmfcmap, hl, hs, hne, aupsert_self i m _ hl]

/-- Witness for `c1_transition_table_amended`: at a concrete mapping in
`idle_or_copied`, `prepare` moves it to `preparing`, and `_cmd_rmfcmap`
deletes it from the mapping list. -/
theorem c1_transition_table_amended_witness :
    state_transition .prepare fcmapIdle =
      (.success "", { fcmapIdle with status := .preparing }) ∧
    (cmd_rmfcmap false (some 0) { fcmappings_list := [(0, fcmapIdle)] }).1 =
      CmdResult.success "" ∧
    alookup 0 (cmd_rmfcmap false (some 0)
      { fcmappings_list := [(0, fcmapIdle)] }).2.fcmappings_list = none :=
  ⟨(c1_transition_table_amended fcmapIdle { fcmappings_list := [(0, fcmapIdle)] } 0).1 rfl,
   ((c1_transition_table_amended fcmapIdle
      { fcmappings_list := [(0, fcmapIdle)] } 0).2.2.2.2.2.2.2.2.2.2.2.2.2.1
      (by decide) rfl false).1,
   ((c1_transition_table_amended fcmapIdle
      { fcmappings_list := [(0, fcmapIdle)] } 0).2.2.2.2.2.2.2.2.2.2.2.2.2.1
      (by decide) rfl false).2⟩

/-- Claim C2 counterexample: `wait` is NOT defined for `idle_or_copied`
in the `_transitions` table, yet `_state_transition` returns a plain
success `('', '')` for it (first branch, lines 153-155) instead of the
CMMVC5903E invalid-transition error the claim requires. -/
theorem c2_undefined_wait_refuted :
    event_defined fcmapIdle.status FCEvent.wait = false ∧
    state_transition .wait fcmapIdle = (.success "", fcmapIdle) ∧
    CmdResult.success "" ≠ CmdResult.error "CMMVC5903E" := by decide

/-- Claim C2 (amended): for every event OTHER THAN `wait` that the
transition table does not define for the mapping's current state,
`_state_transition` returns the typed catch-all error CMMVC5903E and
leaves the mapping unchanged; an undefined `wait`, however, returns
SUCCESS with the mapping unchanged (a silent no-op, lines 153-155), and
`wait` on a mapping in state `end` raises an uncaught TypeError
(`'wait' not in None`) rather than returning the error. -/
theorem c2_undefined_event_behavior (m : FCMap) (e : FCEvent) :
    (e ≠ FCEvent.wait → event_defined m.status e = false →
      state_transition e m = (.error "CMMVC5903E", m)) ∧
    (m.status ≠ FCState.end_ → event_defined m.status FCEvent.wait = false →
      state_transition .wait m = (.success "", m)) ∧
    (m.status = FCState.end_ → state_transition .wait m = (.crash, m)) := by
  refine ⟨?_, ?_, ?_⟩
  · intro hne hdef
    cases hs : m.status <;> cases e <;>
      simp_all [event_defined, state_transition, transitions, alookup]
  · intro hne hdef
    cases hs : m.status <;>
      simp_all [event_defined, state_transition, transitions, alookup]
  · intro hs
    simp [state_transition, hs, transitions]

/-- Witness for `c2_undefined_event_behavior`: `flush_failed` is not
defined in `idle_or_copied` and is rejected with CMMVC5903E; `wait` is
not defined there either and silently succeeds. -/
theorem c2_undefined_event_behavior_witness :
    state_transition .flush_failed fcmapIdle = (.error "CMMVC5903E", fcmapIdle) ∧
    state_transition .wait fcmapIdle = (.success "", fcmapIdle) :=
  ⟨(c2_undefined_event_behavior fcmapIdle .flush_failed).1 (by decide) (by decide),
   (c2_undefined_event_behavior fcmapIdle .flush_failed).2.1 (by decide) (by decide)⟩

theorem iterWait_fixpoint (m : FCMap) (h : (state_transition .wait m).2 = m) :
    ∀ n, iterWait n m = m := by
  intro n
  induction n with
  | zero => rfl
  | succ k ih => simp [iterWait, h, ih]

theorem wait_noop_of_status (m : FCMap)
    (h : m.status = FCState.idle_or_copied ∨ m.status = FCState.stopped ∨
      m.status = FCState.prepared ∨ (m.status = FCState.copying ∧ m.copyrate = "0")) :
    (state_transition .wait m).2 = m := by
  rcases h with h | h | h | ⟨h, hc⟩ <;>
    simp [state_transition, h, transitions, alookup]
  simp [hc]

/-- Claim C3 counterexample: from the non-terminal state `prepared` the
`wait` event is a silent no-op forever — no number of `wait` applications
ever reaches `idle_or_copied` or `stopped` (the prepared→copying move
needs the distinct `start` event). -/
theorem c3_prepared_never_reaches_refuted :
    ¬ ∃ n : Nat, (iterWait n fcmapPrepared).status = FCState.idle_or_copied ∨
      (iterWait n fcmapPrepared).status = FCState.stopped := by
  have hfix : ∀ n, iterWait n fcmapPrepared = fcmapPrepared :=
    iterWait_fixpoint fcmapPrepared (by decide)
  rintro ⟨n, h | h⟩ <;> rw [hfix n] at h <;> exact absurd h (by decide)

/-- Claim C3 (amended): repeated `wait` always stabilizes — there is no
infinite cycle — but it reaches `idle_or_copied` or `stopped` only from
`idle_or_copied`, `stopped`, `stopping`, and `copying` with nonzero copy
rate (within at most 2 steps).  From `preparing` and `prepared` the
iteration is stuck at `prepared`, and from `copying` with copy rate `'0'`
it is stuck at `copying`, never reaching either target state. -/
theorem c3_wait_reachability (m : FCMap) :
    (m.status = FCState.idle_or_copied → ∀ n, (iterWait n m).status = FCState.idle_or_copied) ∧
    (m.status = FCState.stopped → ∀ n, (iterWait n m).status = FCState.stopped) ∧
    (m.status = FCState.stopping → ∀ n, 1 ≤ n → (iterWait n m).status = FCState.stopped) ∧
    (m.status = FCState.copying → m.copyrate ≠ "0" → ∀ n, 2 ≤ n →
      (iterWait n m).status = FCState.idle_or_copied) ∧
    (m.status = FCState.copying → m.copyrate = "0" →
      ∀ n, (iterWait n m).status = FCState.copying) ∧
    (m.status = FCState.preparing → ∀ n, 1 ≤ n →
      (iterWait n m).status = FCState.prepared) ∧
    (m.status = FCState.prepared → ∀ n, (iterWait n m).status = FCState.prepared) := by
  refine ⟨?_, ?_, ?_, ?_, ?_, ?_, ?_⟩
  · intro h n
    rw [iterWait_fixpoint m (wait_noop_of_status m (by tauto)) n, h]
  · intro h n
    rw [iterWait_fixpoint m (wait_noop_of_status m (by tauto)) n, h]
  · intro h n hn
    obtain ⟨k, rfl⟩ := Nat.exists_eq_add_of_le hn
    have hstep : (state_transition .wait m).2 = { m with status := FCState.stopped } := by
      simp [state_transition, h, transitions, alookup]
    rw [Nat.add_comm, iterWait, hstep,
      iterWait_fixpoint _ (wait_noop_of_status _ (by tauto)) k]
  · intro h hc n hn
    obtain ⟨k, rfl⟩ := Nat.exists_eq_add_of_le hn
    by_cases hp : m.progress = "0"
    · have hstep : (state_transition .wait m).2 = { m with progress := "50" } := by
        simp [state_transition, h, transitions, alookup, hc, hp]
      have hstep2 : (state_transition .wait { m with progress := "50" }).2 =
          { m with progress := "100", status := FCState.idle_or_copied } := by
        simp [state_transition, h, transitions, alookup, hc]
      rw [Nat.add_comm, iterWait, hstep, iterWait, hstep2,
        iterWait_fixpoint _ (wait_noop_of_status _ (by tauto)) k]
    · have hstep : (state_transition .wait m).2 =
          { m with progress := "100", status := FCState.idle_or_copied } := by
        simp [state_transition, h, transitions, alookup, hc, hp]
      rw [Nat.add_comm, iterWait, hstep, iterWait,
        wait_noop_of_status _ (by tauto),
        iterWait_fixpoint _ (wait_noop_of_status _ (by tauto)) k]
  · intro h hc n
    rw [iterWait_fixpoint m (wait_noop_of_status m (by tauto)) n, h]
  · intro h n hn
    obtain ⟨k, rfl⟩ := Nat.exists_eq_add_of_le hn
    have hstep : (state_transition .wait m).2 = { m with status := FCState.prepared } := by
      simp [state_transition, h, transitions, alookup]
    rw [Nat.add_comm, iterWait, hstep,
      iterWait_fixpoint _ (wait_noop_of_status _ (by tauto)) k]
  · intro h n
    rw [iterWait_fixpoint m (wait_noop_of_status m (by tauto)) n, h]

/-- Witness for `c3_wait_reachability`: a concrete `stopping` mapping
reaches `stopped` in one `wait`, and a concrete nonzero-rate `copying`
mapping reaches `idle_or_copied` in two. -/
theorem c3_wait_reachability_witness :
    (iterWait 1 { fcmapIdle with status := FCState.stopping }).status = FCState.stopped ∧
    (iterWait 2 { fcmapIdle with status := FCState.copying }).status =
      FCState.idle_or_copied :=
  ⟨(c3_wait_reachability { fcmapIdle with status := FCState.stopping }).2.2.1
      rfl 1 (by decide),
   (c3_wait_reachability { fcmapIdle with status := FCState.copying }).2.2.2.1
      rfl (by decide) 2 (by decide)⟩

/-- Claim C5: `_cmd_mkfcmap` on two existing volumes of different
capacities fails with the size-mismatch error CMMVC5924E before any
mapping is created — the returned state is exactly the input state, so
the PiT-mapping list is untouched. -/
theorem c5_mkfcmap_size_mismatch (s0 t0 : String) (copyrate : Option String)
    (autodelete : Bool) (st : SimState) (vs vt : Volume)
    (hs : alookup (stripQuotes s0) st.volumes_list = some vs)
    (ht : alookup (stripQuotes t0) st.volumes_list = some vt)
    (hcap : vs.capacity ≠ vt.capacity) :
    cmd_mkfcmap (some s0) (some t0) copyrate autodelete st =
      (.error "CMMVC5924E", st) := by
  have hne : ¬ stripQuotes s0 = stripQuotes t0 := by
    intro h
    rw [h, ht] at hs
    injection hs with h2
    exact hcap (by rw [h2])
  simp [cmd_mkfcmap, hs, ht, hne, hcap]

/-- Witness for `c5_mkfcmap_size_mismatch` at concrete volumes. -/
theorem c5_mkfcmap_size_mismatch_witness :
    cmd_mkfcmap (some "vol1") (some "vol2") none false stTwoVols =
      (.error "CMMVC5924E", stTwoVols) :=
  c5_mkfcmap_size_mismatch "vol1" "vol2" none false stTwoVols volA volB
    (by decide) (by decide) (by decide)

/-- Claim C6: a valid `mkvdisk` stores the requested size converted to
bytes as the volume's capacity, reading the volume's attributes returns
that same capacity, and a second `mkvdisk` with the same name fails with
CMMVC6035E leaving the state (volume list included) unchanged. -/
theorem c6_mkvdisk_roundtrip_and_duplicate (args : MkvdiskArgs) (st : SimState)
    (name : String) (k : Nat)
    (hname : args.name = some name) (hstrip : stripQuotes name = name)
    (het : args.easytier.isSome = true)
    (hunit : unit_pos (lowerString args.unit) unit_list = some k)
    (hfresh : alookup name st.volumes_list = none) :
    (∃ out, (cmd_mkvdisk args st).1 = CmdResult.success out) ∧
    (alookup name (cmd_mkvdisk args st).2.volumes_list).map Volume.capacity =
      some (args.size * 1024 ^ k) ∧
    lsvdisk_capacity_attr name (cmd_mkvdisk args st).2 =
      some (args.size * 1024 ^ k) ∧
    cmd_mkvdisk args (cmd_mkvdisk args st).2 =
      (.error "CMMVC6035E", (cmd_mkvdisk args st).2) := by
  obtain ⟨et, het⟩ := Option.isSome_iff_exists.mp het
  have hconv : convert_units_bytes args.size args.unit = some (args.size * 1024 ^ k) := by
    simp [convert_units_bytes, hunit]
  refine ⟨?_, ?_, ?_, ?_⟩
  · simp [cmd_mkvdisk, hconv, het, hname, hstrip, hfresh]
  · simp [cmd_mkvdisk, hconv, het, hname, hstrip, hfresh, alookup_aupsert]
  · simp [lsvdisk_capacity_attr, cmd_mkvdisk, hconv, het, hname, hstrip, hfresh,
      alookup_aupsert]
  · simp [cmd_mkvdisk, hconv, het, hname, hstrip, hfresh, alookup_aupsert]

/-- Witness for `c6_mkvdisk_roundtrip_and_duplicate`: creating `vol1`
with 10 GB on an empty array stores 10·1024³ bytes, reads back the same,
and a duplicate creation fails with CMMVC6035E. -/
theorem c6_mkvdisk_roundtrip_and_duplicate_witness :
    (∃ out, (cmd_mkvdisk mkvdiskArgs10g {}).1 = CmdResult.success out) ∧
    (alookup "vol1" (cmd_mkvdisk mkvdiskArgs10g {}).2.volumes_list).map Volume.capacity =
      some (10 * 1024 ^ 3) ∧
    lsvdisk_capacity_attr "vol1" (cmd_mkvdisk mkvdiskArgs10g {}).2 =
      some (10 * 1024 ^ 3) ∧
    cmd_mkvdisk mkvdiskArgs10g (cmd_mkvdisk mkvdiskArgs10g {}).2 =
      (.error "CMMVC6035E", (cmd_mkvdisk mkvdiskArgs10g {}).2) :=
  c6_mkvdisk_roundtrip_and_duplicate mkvdiskArgs10g {} "vol1" 3
    rfl (by decide) rfl (by decide) rfl

/-- Claim C7: an existing volume that appears in a host mapping or in a
FlashCopy mapping cannot be deleted without `-force` (CMMVC5840E, state
unchanged); with `-force` the volume is removed from the volume list. -/
theorem c7_rmvdisk_in_use (st : SimState) (name : String) (vol : Volume)
    (hstrip : stripQuotes name = name)
    (hvol : alookup name st.volumes_list = some vol) :
    ((vol_has_host_mapping st name = true ∨ vol_in_fcmap st name = true) →
      cmd_rmvdisk false (some name) st = (.error "CMMVC5840E", st)) ∧
    cmd_rmvdisk true (some name) st =
      (.success "", { st with volumes_list := aremove name st.volumes_list }) ∧
    alookup name (cmd_rmvdisk true (some name) st).2.volumes_list = none := by
  refine ⟨?_, ?_, ?_⟩
  · intro h
    rcases h with h | h
    · simp [cmd_rmvdisk, hstrip, hvol, h]
    · by_cases hm : vol_has_host_mapping st name <;>
        simp [cmd_rmvdisk, hstrip, hvol, h, hm]
  · simp [cmd_rmvdisk, hstrip, hvol]
  · simp [cmd_rmvdisk, hstrip, hvol, alookup_aremove]

/-- Claim C9: the initiator-uniqueness invariant is broken by
`_cmd_addhostport`.  `_add_port_to_host` APPENDS the port to the (stored,
mutated in place) host record at line 762 and only afterwards scans the
other hosts, so when it reports the duplicate-initiator error CMMVC6581E
the port stays attached: after `mkhost host1 iqn.x; mkhost host2 iqn.y;
addhostport host2 iqn.x` the call errors with CMMVC6581E yet `iqn.x` is
in the `iscsi_names` of BOTH hosts.  (`_cmd_mkhost` is unaffected: it
discards the fresh record on error.) -/
theorem c9_duplicate_initiator_leak :
    (cmd_addhostport (some "host2") { iscsiname := some "iqn.x" } hostStateTwo).1 =
      CmdResult.error "CMMVC6581E" ∧
    (alookup "host1" (cmd_addhostport (some "host2") { iscsiname := some "iqn.x" }
        hostStateTwo).2.hosts_list).map Host.iscsi_names = some ["iqn.x"] ∧
    (alookup "host2" (cmd_addhostport (some "host2") { iscsiname := some "iqn.x" }
        hostStateTwo).2.hosts_list).map Host.iscsi_names = some ["iqn.y", "iqn.x"] := by
  decide

/-- Claim C10: the capacity reporter's record satisfies
`free_capacity_gb ≤ total_capacity_gb` for every pool row the simulator
reports (and for any pool whose raw `free_capacity` does not exceed its
`capacity`); for the simulated primary pool the values are exactly
3328.0 total and 3287.5 free (GB, bytes divided by 2^30). -/
theorem c10_capacity_stats (st : SimState) (p : PoolInfo) :
    (p ∈ lsmdiskgrp_rows st →
      (update_volume_stats p).free_capacity_gb ≤
        (update_volume_stats p).total_capacity_gb) ∧
    (p.free_capacity ≤ p.capacity →
      (update_volume_stats p).free_capacity_gb ≤
        (update_volume_stats p).total_capacity_gb) ∧
    (update_volume_stats (sim_primary_pool st)).total_capacity_gb = 3328 ∧
    (update_volume_stats (sim_primary_pool st)).free_capacity_gb = 3287.5 := by
  refine ⟨?_, ?_, ?_, ?_⟩
  · intro hp
    simp [lsmdiskgrp_rows] at hp
    rcases hp with h | h | h <;> subst h <;>
      simp [update_volume_stats] <;> norm_num
  · intro hle
    have hc : (p.free_capacity : ℚ) ≤ (p.capacity : ℚ) := by exact_mod_cast hle
    simp only [update_volume_stats]
    gcongr
  · norm_num [update_volume_stats, sim_primary_pool]
  · norm_num [update_volume_stats, sim_primary_pool]

/-- Witness for `c10_capacity_stats` at the concrete primary pool row. -/
theorem c10_capacity_stats_witness :
    (update_volume_stats (sim_primary_pool {})).free_capacity_gb ≤
      (update_volume_stats (sim_primary_pool {})).total_capacity_gb :=
  (c10_capacity_stats {} (sim_primary_pool {})).1
    (by simp [lsmdiskgrp_rows, sim_primary_pool])

theorem cmd_mkvdisk_fcmappings (args : MkvdiskArgs) (st : SimState) :
    (cmd_mkvdisk args st).2.fcmappings_list = st.fcmappings_list := by
  simp only [cmd_mkvdisk]
  split
  · rfl
  · split
    · rfl
    · split <;> rfl

theorem cmd_mkvdisk_not_success (args : MkvdiskArgs) (st : SimState) :
    (∃ out, (cmd_mkvdisk args st).1 = CmdResult.success out) ∨
      (cmd_mkvdisk args st).2 = st := by
  simp only [cmd_mkvdisk]
  split
  · exact Or.inr rfl
  · split
    · exact Or.inr rfl
    · split
      · exact Or.inr rfl
      · exact Or.inl ⟨_, rfl⟩

theorem cmd_mkfcmap_volumes (s t cr : Option String) (ad : Bool) (st : SimState) :
    (cmd_mkfcmap s t cr ad st).2.volumes_list = st.volumes_list := by
  simp only [cmd_mkfcmap]
  split
  · rfl
  · split
    · rfl
    · split
      · rfl
      · split
        · rfl
        · split
          · rfl
          · split <;> rfl

theorem cmd_mkfcmap_fc_other (s t cr : Option String) (ad : Bool) (st : SimState)
    (q : Nat) (hq : q ≠ find_unused_id (st.fcmappings_list.map (fun p => p.2.id))) :
    alookup q (cmd_mkfcmap s t cr ad st).2.fcmappings_list =
      alookup q st.fcmappings_list := by
  simp only [cmd_mkfcmap]
  split
  · rfl
  · split
    · rfl
    · split
      · rfl
      · split
        · rfl
        · split
          · rfl
          · split
            · rfl
            · simp [alookup_aupsert, hq]

theorem cmd_mkfcmap_not_success (s t cr : Option String) (ad : Bool) (st : SimState) :
    (∃ out, (cmd_mkfcmap s t cr ad st).1 = CmdResult.success out) ∨
      (cmd_mkfcmap s t cr ad st).2 = st := by
  simp only [cmd_mkfcmap]
  split
  · exact Or.inr rfl
  · split
    · exact Or.inr rfl
    · split
      · exact Or.inr rfl
      · split
        · exact Or.inr rfl
        · split
          · exact Or.inr rfl
          · split
            · exact Or.inr rfl
            · exact Or.inl ⟨_, rfl⟩

theorem cmd_gen_prestartfcmap_volumes (o : Option Nat) (st : SimState) :
    (cmd_gen_prestartfcmap o st).2.volumes_list = st.volumes_list := by
  simp only [cmd_gen_prestartfcmap]
  split
  · rfl
  · split <;> rfl

theorem cmd_gen_prestartfcmap_fc_other (i q : Nat) (st : SimState) (hq : q ≠ i) :
    alookup q (cmd_gen_prestartfcmap (some i) st).2.fcmappings_list =
      alookup q st.fcmappings_list := by
  simp only [cmd_gen_prestartfcmap]
  split
  · rfl
  · simp [alookup_aupsert, hq]

theorem cmd_gen_startfcmap_volumes (o : Option Nat) (st : SimState) :
    (cmd_gen_startfcmap o st).2.volumes_list = st.volumes_list := by
  simp only [cmd_gen_startfcmap]
  split
  · rfl
  · split <;> rfl

theorem cmd_gen_startfcmap_fc_other (i q : Nat) (st : SimState) (hq : q ≠ i) :
    alookup q (cmd_gen_startfcmap (some i) st).2.fcmappings_list =
      alookup q st.fcmappings_list := by
  simp only [cmd_gen_startfcmap]
  split
  · rfl
  · simp [alookup_aupsert, hq]

theorem apply_wait_once_volumes (i : Nat) (st : SimState) :
    (apply_wait_once i st).volumes_list = st.volumes_list := by
  simp only [apply_wait_once]
  split <;> rfl

theorem apply_wait_once_fc_other (i q : Nat) (st : SimState) (hq : q ≠ i) :
    alookup q (apply_wait_once i st).fcmappings_list =
      alookup q st.fcmappings_list := by
  simp only [apply_wait_once]
  split
  · rfl
  · simp [alookup_aupsert, hq]

theorem wait_for_copy_volumes (fuel i : Nat) (st : SimState) :
    (wait_for_copy fuel i st).2.volumes_list = st.volumes_list := by
  induction fuel generalizing st with
  | zero => rfl
  | succ n ih =>
    simp only [wait_for_copy]
    split
    · rfl
    · split
      · rfl
      · rw [ih, apply_wait_once_volumes]

theorem wait_for_copy_fc_other (fuel i q : Nat) (st : SimState) (hq : q ≠ i) :
    alookup q (wait_for_copy fuel i st).2.fcmappings_list =
      alookup q st.fcmappings_list := by
  induction fuel generalizing st with
  | zero => rfl
  | succ n ih =>
    simp only [wait_for_copy]
    split
    · rfl
    · split
      · rfl
      · rw [ih, apply_wait_once_fc_other i q st hq]

theorem cmd_rmvdisk_fcmappings (f : Bool) (o : Option String) (st : SimState) :
    (cmd_rmvdisk f o st).2.fcmappings_list = st.fcmappings_list := by
  simp only [cmd_rmvdisk]
  split
  · rfl
  · split
    · rfl
    · split
      · rfl
      · split <;> rfl

theorem snapshot_cleanup_tgt_gone (tgt : String) (i : Option Nat) (st : SimState)
    (hstrip : stripQuotes tgt = tgt) :
    alookup tgt (snapshot_cleanup tgt i st).volumes_list = none := by
  unfold snapshot_cleanup
  rcases i with _ | i
  · simp only [cmd_rmvdisk, hstrip]
    split
    · next h => exact Option.isNone_iff_eq_none.mp h
    · split
      · next h => simp at h
      · simp [alookup_aremove]
  · simp only [cmd_rmvdisk, hstrip]
    split
    · next h => exact Option.isNone_iff_eq_none.mp h
    · split
      · next h => simp at h
      · simp [alookup_aremove]

theorem snapshot_cleanup_fc (tgt : String) (i : Nat) (st : SimState) (q : Nat) :
    alookup q (snapshot_cleanup tgt (some i) st).fcmappings_list =
      if q = i then none else alookup q st.fcmappings_list := by
  unfold snapshot_cleanup
  rw [cmd_rmvdisk_fcmappings]
  simp [alookup_aremove]

theorem snapshot_cleanup_fc_none (tgt : String) (st : SimState) (q : Nat) :
    alookup q (snapshot_cleanup tgt none st).fcmappings_list =
      alookup q st.fcmappings_list := by
  unfold snapshot_cleanup
  rw [cmd_rmvdisk_fcmappings]

theorem c4_cleanup_post (tgt : String) (i : Nat) (X st0 : SimState)
    (hstrip : stripQuotes tgt = tgt)
    (hfc : ∀ k, k ≠ i → alookup k X.fcmappings_list = alookup k st0.fcmappings_list) :
    alookup tgt (snapshot_cleanup tgt (some i) X).volumes_list = none ∧
    (∀ k, alookup k st0.fcmappings_list = none →
      alookup k (snapshot_cleanup tgt (some i) X).fcmappings_list = none) := by
  refine ⟨snapshot_cleanup_tgt_gone tgt (some i) X hstrip, ?_⟩
  intro k hk
  rw [snapshot_cleanup_fc]
  by_cases h : k = i
  · simp [h]
  · rw [if_neg h, hfc k h, hk]

/-- Claim C4: whenever the snapshot/clone flow fails — at the prepare
step, the start step, or by timing out waiting for completion — the call
returns the original error AND no residual target volume exists (the
partially created target volume is deleted), and no PiT mapping created
by the call survives (every mapping id unused before the call is unused
after it). -/
theorem c4_failed_snapshot_cleanup (src tgt : String) (fail : SnapFail)
    (fuel : Nat) (st : SimState) (hfail : fail ≠ SnapFail.noFail)
    (hstrip : stripQuotes tgt = tgt)
    (hfresh : alookup tgt st.volumes_list = none) :
    (∃ e, (create_snapshot_flow src tgt fail fuel st).1 = Except.error e) ∧
    alookup tgt (create_snapshot_flow src tgt fail fuel st).2.volumes_list = none ∧
    (∀ k, alookup k st.fcmappings_list = none →
      alookup k (create_snapshot_flow src tgt fail fuel st).2.fcmappings_list = none) := by
  unfold create_snapshot_flow
  cases hsrc : alookup src st.volumes_list with
  | none => exact ⟨⟨_, rfl⟩, hfresh, fun k hk => hk⟩
  | some sv =>
    dsimp only
    have hid : (cmd_mkvdisk (snapshot_mkargs tgt sv.capacity) st).2.fcmappings_list =
        st.fcmappings_list := cmd_mkvdisk_fcmappings _ _
    cases hr1 : (cmd_mkvdisk (snapshot_mkargs tgt sv.capacity) st).1 with
    | error c =>
      rcases cmd_mkvdisk_not_success (snapshot_mkargs tgt sv.capacity) st with ⟨o, ho⟩ | hst
      · rw [ho] at hr1
        cases hr1
      · rw [hst]
        exact ⟨⟨_, rfl⟩, hfresh, fun k hk => hk⟩
    | crash =>
      rcases cmd_mkvdisk_not_success (snapshot_mkargs tgt sv.capacity) st with ⟨o, ho⟩ | hst
      · rw [ho] at hr1
        cases hr1
      · rw [hst]
        exact ⟨⟨_, rfl⟩, hfresh, fun k hk => hk⟩
    | success out1 =>
      have hfc2 : ∀ k, k ≠ find_unused_id
          (((cmd_mkvdisk (snapshot_mkargs tgt sv.capacity) st).2.fcmappings_list).map
            (fun p => p.2.id)) →
          alookup k (cmd_mkfcmap (some src) (some tgt) none false
            (cmd_mkvdisk (snapshot_mkargs tgt sv.capacity) st).2).2.fcmappings_list =
            alookup k st.fcmappings_list := by
        intro k hk
        rw [cmd_mkfcmap_fc_other _ _ _ _ _ k hk, hid]
      cases hr2 : (cmd_mkfcmap (some src) (some tgt) none false
          (cmd_mkvdisk (snapshot_mkargs tgt sv.capacity) st).2).1 with
      | error c =>
        refine ⟨⟨_, rfl⟩, snapshot_cleanup_tgt_gone _ _ _ hstrip, ?_⟩
        intro k hk
        rcases cmd_mkfcmap_not_success (some src) (some tgt) none false
            (cmd_mkvdisk (snapshot_mkargs tgt sv.capacity) st).2 with ⟨o, ho⟩ | hst
        · rw [ho] at hr2
          cases hr2
        · rw [snapshot_cleanup_fc_none, hid, hk]
      | crash =>
        refine ⟨⟨_, rfl⟩, snapshot_cleanup_tgt_gone _ _ _ hstrip, ?_⟩
        intro k hk
        rcases cmd_mkfcmap_not_success (some src) (some tgt) none false
            (cmd_mkvdisk (snapshot_mkargs tgt sv.capacity) st).2 with ⟨o, ho⟩ | hst
        · rw [ho] at hr2
          cases hr2
        · rw [snapshot_cleanup_fc_none, hid, hk]
      | success out2 =>
        by_cases hp : fail = SnapFail.atPrepare
        · rw [if_pos hp]
          obtain ⟨hB, hC⟩ := c4_cleanup_post tgt _ _ st hstrip hfc2
          exact ⟨⟨_, rfl⟩, hB, hC⟩
        · rw [if_neg hp]
          cases hr3 : (cmd_gen_prestartfcmap
              (some (find_unused_id
                (((cmd_mkvdisk (snapshot_mkargs tgt sv.capacity) st).2.fcmappings_list).map
                  (fun p => p.2.id))))
              (cmd_mkfcmap (some src) (some tgt) none false
                (cmd_mkvdisk (snapshot_mkargs tgt sv.capacity) st).2).2).1 with
          | error c =>
            have hfc3 : ∀ k, k ≠ find_unused_id
                (((cmd_mkvdisk (snapshot_mkargs tgt sv.capacity) st).2.fcmappings_list).map
                  (fun p => p.2.id)) →
                alookup k (cmd_gen_prestartfcmap
                  (some (find_unused_id
                    (((cmd_mkvdisk (snapshot_mkargs tgt
                      sv.capacity) st).2.fcmappings_list).map (fun p => p.2.id))))
                  (cmd_mkfcmap (some src) (some tgt) none false
                    (cmd_mkvdisk (snapshot_mkargs tgt
                      sv.capacity) st).2).2).2.fcmappings_list =
                  alookup k st.fcmappings_list := by
              intro k hk
              rw [cmd_gen_prestartfcmap_fc_other _ k _ hk, hfc2 k hk]
            obtain ⟨hB, hC⟩ := c4_cleanup_post tgt _ _ st hstrip hfc3
            exact ⟨⟨_, rfl⟩, hB, hC⟩
          | crash =>
            have hfc3 : ∀ k, k ≠ find_unused_id
                (((cmd_mkvdisk (snapshot_mkargs tgt sv.capacity) st).2.fcmappings_list).map
                  (fun p => p.2.id)) →
                alookup k (cmd_gen_prestartfcmap
                  (some (find_unused_id
                    (((cmd_mkvdisk (snapshot_mkargs tgt
                      sv.capacity) st).2.fcmappings_list).map (fun p => p.2.id))))
                  (cmd_mkfcmap (some src) (some tgt) none false
                    (cmd_mkvdisk (snapshot_mkargs tgt
                      sv.capacity) st).2).2).2.fcmappings_list =
                  alookup k st.fcmappings_list := by
              intro k hk
              rw [cmd_gen_prestartfcmap_fc_other _ k _ hk, hfc2 k hk]
            obtain ⟨hB, hC⟩ := c4_cleanup_post tgt _ _ st hstrip hfc3
            exact ⟨⟨_, rfl⟩, hB, hC⟩
          | success out3 =>
            have hfc4 : ∀ k, k ≠ find_unused_id
                (((cmd_mkvdisk (snapshot_mkargs tgt sv.capacity) st).2.fcmappings_list).map
                  (fun p => p.2.id)) →
                alookup k (apply_wait_once
                  (find_unused_id
                    (((cmd_mkvdisk (snapshot_mkargs tgt
                      sv.capacity) st).2.fcmappings_list).map (fun p => p.2.id)))
                  (cmd_gen_prestartfcmap
                    (some (find_unused_id
                      (((cmd_mkvdisk (snapshot_mkargs tgt
                        sv.capacity) st).2.fcmappings_list).map (fun p => p.2.id))))
                    (cmd_mkfcmap (some src) (some tgt) none false
                      (cmd_mkvdisk (snapshot_mkargs tgt
                        sv.capacity) st).2).2).2).fcmappings_list =
                  alookup k st.fcmappings_list := by
              intro k hk
              rw [apply_wait_once_fc_other _ k _ hk,
                cmd_gen_prestartfcmap_fc_other _ k _ hk, hfc2 k hk]
            by_cases hsx : fail = SnapFail.atStart
            · rw [if_pos hsx]
              obtain ⟨hB, hC⟩ := c4_cleanup_post tgt _ _ st hstrip hfc4
              exact ⟨⟨_, rfl⟩, hB, hC⟩
            · rw [if_neg hsx]
              have hft : fail = SnapFail.atTimeout := by
                cases fail <;> simp_all
              cases hr4 : (cmd_gen_startfcmap
                  (some (find_unused_id
                    (((cmd_mkvdisk (snapshot_mkargs tgt
                      sv.capacity) st).2.fcmappings_list).map (fun p => p.2.id))))
                  (apply_wait_once
                    (find_unused_id
                      (((cmd_mkvdisk (snapshot_mkargs tgt
                        sv.capacity) st).2.fcmappings_list).map (fun p => p.2.id)))
                    (cmd_gen_prestartfcmap
                      (some (find_unused_id
                        (((cmd_mkvdisk (snapshot_mkargs tgt
                          sv.capacity) st).2.fcmappings_list).map (fun p => p.2.id))))
                      (cmd_mkfcmap (some src) (some tgt) none false
                        (cmd_mkvdisk (snapshot_mkargs tgt
                          sv.capacity) st).2).2).2)).1 with
              | error c =>
                obtain ⟨hB, hC⟩ := c4_cleanup_post tgt _ _ st hstrip hfc4
                exact ⟨⟨_, rfl⟩, hB, hC⟩
              | crash =>
                obtain ⟨hB, hC⟩ := c4_cleanup_post tgt _ _ st hstrip hfc4
                exact ⟨⟨_, rfl⟩, hB, hC⟩
              | success out4 =>
                rw [hft]
                have hfc5 : ∀ k, k ≠ find_unused_id
                    (((cmd_mkvdisk (snapshot_mkargs tgt
                      sv.capacity) st).2.fcmappings_list).map (fun p => p.2.id)) →
                    alookup k (cmd_gen_startfcmap
                      (some (find_unused_id
                        (((cmd_mkvdisk (snapshot_mkargs tgt
                          sv.capacity) st).2.fcmappings_list).map (fun p => p.2.id))))
                      (apply_wait_once
                        (find_unused_id
                          (((cmd_mkvdisk (snapshot_mkargs tgt
                            sv.capacity) st).2.fcmappings_list).map (fun p => p.2.id)))
                        (cmd_gen_prestartfcmap
                          (some (find_unused_id
                            (((cmd_mkvdisk (snapshot_mkargs tgt
                              sv.capacity) st).2.fcmappings_list).map
                                (fun p => p.2.id))))
                          (cmd_mkfcmap (some src) (some tgt) none false
                            (cmd_mkvdisk (snapshot_mkargs tgt
                              sv.capacity) st).2).2).2)).2.fcmappings_list =
                      alookup k st.fcmappings_list := by
                  intro k hk
                  rw [cmd_gen_startfcmap_fc_other _ k _ hk, hfc4 k hk]
                obtain ⟨hB, hC⟩ := c4_cleanup_post tgt _ _ st hstrip hfc5
                exact ⟨⟨_, rfl⟩, hB, hC⟩

/-- Witness for `c4_failed_snapshot_cleanup`: with one source volume
`vol1`, an injected failure at the start step errors out and leaves no
`snap1` target volume and no new FlashCopy mapping behind. -/
theorem c4_failed_snapshot_cleanup_witness :
    (∃ e, (create_snapshot_flow "vol1" "snap1" SnapFail.atStart 5 stMigrate).1 =
      Except.error e) ∧
    alookup "snap1" (create_snapshot_flow "vol1" "snap1" SnapFail.atStart 5
      stMigrate).2.volumes_list = none ∧
    (∀ k, alookup k stMigrate.fcmappings_list = none →
      alookup k (create_snapshot_flow "vol1" "snap1" SnapFail.atStart 5
        stMigrate).2.fcmappings_list = none) :=
  c4_failed_snapshot_cleanup "vol1" "snap1" SnapFail.atStart 5 stMigrate
    (by decide) (by decide) (by decide)

theorem pool_all_lookup_false (a b : List (String × Volume)) (k : String) (v : Volume)
    (ha : alookup k a = some v) (hb : alookup k b = none) :
    (a.all fun p => decide (alookup p.1 b = some p.2)) = false := by
  induction a with
  | nil => simp [alookup] at ha
  | cons p rest ih =>
    by_cases hp : p.1 = k
    · have h2 : alookup p.1 b = none := by rw [hp, hb]
      simp [h2]
    · rw [alookup, if_neg hp] at ha
      simp [ih ha]

theorem pool_dict_eq_false (a b : List (String × Volume)) (k : String) (v : Volume)
    (ha : alookup k a = some v) (hb : alookup k b = none) :
    pool_dict_eq a b = false := by
  simp only [pool_dict_eq, pool_all_lookup_false a b k v ha hb, Bool.false_and]

/-- Claim C8 counterexample: the claim says membership is reassigned
remove-from-source-pool THEN insert-into-target-pool, under which the
volume would be absent from the source pool at the intermediate point.
The source (lines 1227-1229) does `tgt_mdiskgrp[vdisk] = vol` first and
`del curr_mdiskgrp[vdisk]` second: at the intermediate state after the
first pool mutation the volume is still present in the source pool and
already present in the target pool. -/
theorem c8_remove_then_insert_refuted :
    (cmd_migratevdisk (some "openstack2") (some "vol1") stMigrate).result =
      CmdResult.success "" ∧
    alookup "vol1" (cmd_migratevdisk (some "openstack2") (some "vol1")
      stMigrate).mid.volumes_list = some volA ∧
    alookup "vol1" (cmd_migratevdisk (some "openstack2") (some "vol1")
      stMigrate).mid.pool_openstack2 = some volA := by decide

/-- Claim C8 (amended): migrating a volume that resides in the primary
pool to a distinct existing pool succeeds, but membership is reassigned
insert-into-target-pool THEN remove-from-source-pool (so the volume is
transiently referenced by both pools, never by neither); afterwards the
volume belongs to exactly the target pool — present there, absent from
the source.  Migrating to the pool the volume already belongs to fails
with CMMVC6430E leaving the state unchanged.  A volume that does not
reside in the primary pool (e.g. one sitting in a secondary pool) is
never moved: the command reports CMMVC5754E (the source-pool search
iterates over pool-name keys, not pool contents). -/
theorem c8_migrate_insert_then_remove (st : SimState) (vd md : String)
    (vol : Volume) (tsel : TgtSel) :
    (stripQuotes vd = vd → stripQuotes md = md →
      alookup vd st.volumes_list = some vol →
      ((md = "openstack2" ∧ md ≠ st.volpool_name ∧ tsel = TgtSel.p2) ∨
       (md = "openstack3" ∧ md ≠ st.volpool_name ∧ md ≠ "openstack2" ∧
         tsel = TgtSel.p3)) →
      alookup vd (tgt_pool_list st tsel) = none →
      (cmd_migratevdisk (some md) (some vd) st).result = CmdResult.success "" ∧
      alookup vd (cmd_migratevdisk (some md) (some vd) st).mid.volumes_list =
        some vol ∧
      alookup vd (tgt_pool_list (cmd_migratevdisk (some md) (some vd) st).mid tsel) =
        some vol ∧
      alookup vd (cmd_migratevdisk (some md) (some vd) st).final.volumes_list =
        none ∧
      alookup vd (tgt_pool_list (cmd_migratevdisk (some md) (some vd) st).final tsel) =
        some vol) ∧
    (stripQuotes vd = vd → stripQuotes md = md →
      alookup vd st.volumes_list = some vol → md = st.volpool_name →
      cmd_migratevdisk (some md) (some vd) st =
        { result := CmdResult.error "CMMVC6430E", mid := st, final := st }) ∧
    (stripQuotes vd = vd →
      alookup vd st.volumes_list = none →
      occursWithin vd.data "openstack2".data = false →
      occursWithin vd.data "openstack3".data = false →
      cmd_migratevdisk (some md) (some vd) st =
        { result := CmdResult.error "CMMVC5754E", mid := st, final := st }) := by
  refine ⟨?_, ?_, ?_⟩
  · intro hvd hmd hvol htsel hfreshtgt
    rcases htsel with ⟨h1, h2, h3⟩ | ⟨h1, h2, h3, h4⟩
    · subst h1
      subst h3
      have hde := pool_dict_eq_false st.volumes_list st.pool_openstack2 vd vol hvol
        (by simpa [tgt_pool_list] using hfreshtgt)
      simp [cmd_migratevdisk, hvd, hmd, hvol, h2, hde, tgt_pool_list, set_tgt_pool,
        alookup_aupsert, alookup_aremove]
    · subst h1
      subst h4
      have hde := pool_dict_eq_false st.volumes_list st.pool_openstack3 vd vol hvol
        (by simpa [tgt_pool_list] using hfreshtgt)
      simp [cmd_migratevdisk, hvd, hmd, hvol, h2, h3, hde, tgt_pool_list, set_tgt_pool,
        alookup_aupsert, alookup_aremove]
  · intro hvd hmd hvol hsame
    subst hsame
    simp [cmd_migratevdisk, hvd, hmd, hvol]
  · intro hvd hvol h2 h3
    simp [cmd_migratevdisk, hvd, hvol, h2, h3]

/-- Witness for `c8_migrate_insert_then_remove`: the concrete one-volume
migration to `openstack2`. -/
theorem c8_migrate_insert_then_remove_witness :
    (cmd_migratevdisk (some "openstack2") (some "vol1") stMigrate).result =
      CmdResult.success "" ∧
    alookup "vol1" (cmd_migratevdisk (some "openstack2") (some "vol1")
      stMigrate).final.volumes_list = none ∧
    alookup "vol1" (tgt_pool_list (cmd_migratevdisk (some "openstack2") (some "vol1")
      stMigrate).final TgtSel.p2) = some volA :=
  ⟨((c8_migrate_insert_then_remove stMigrate "vol1" "openstack2" volA TgtSel.p2).1
      (by decide) (by decide) (by decide) (Or.inl ⟨rfl, by decide, rfl⟩) (by decide)).1,
   ((c8_migrate_insert_then_remove stMigrate "vol1" "openstack2" volA TgtSel.p2).1
      (by decide) (by decide) (by decide) (Or.inl ⟨rfl, by decide, rfl⟩) (by decide)).2.2.2.1,
   ((c8_migrate_insert_then_remove stMigrate "vol1" "openstack2" volA TgtSel.p2).1
      (by decide) (by decide) (by decide) (Or.inl ⟨rfl, by decide, rfl⟩) (by decide)).2.2.2.2⟩

/-- Witness for `c7_rmvdisk_in_use` at a concrete in-use volume. -/
theorem c7_rmvdisk_in_use_witness :
    cmd_rmvdisk false (some "vol1") stVolWithFcmap =
      (.error "CMMVC5840E", stVolWithFcmap) ∧
    alookup "vol1" (cmd_rmvdisk true (some "vol1") stVolWithFcmap).2.volumes_list =
      none :=
  ⟨(c7_rmvdisk_in_use stVolWithFcmap "vol1" volA (by decide) (by decide)).1
      (Or.inr (by decide)),
   (c7_rmvdisk_in_use stVolWithFcmap "vol1" volA (by decide) (by decide)).2.2⟩

